import Mathlib

/-!
Verification of the compound-interest calculator's projection engine.

The arithmetic of the source is JavaScript double-precision; we embed it
over the exact rationals, preserving the order of operations of the code.

Sources embedded here:
  * `calculateYearlyData` from `src/app/calculator/page.tsx` (multiplies the
    entered contribution by 12) and the variant in `next.config.ts` (uses
    the entered contribution as the annual figure, no multiplication);
  * the derived aggregates (`finalBalance`, `totalContributed`,
    `totalInterest`, `interestPercentage`) from `page.tsx`;
  * `calculateWithRate` and `calculateDynamicGaps` from
    `CompoundInterestChart.tsx` and the chart/calculator variants;
  * the numeric input handlers of both calculator variants.
-/

/-- One row of the projection table (`YearlyData` in the source). -/
structure YearlyData where
  year : ℕ
  startBalance : ℚ
  contribution : ℚ
  interest : ℚ
  endBalance : ℚ
  totalContributed : ℚ
deriving Repr, DecidableEq

/-- The body of the `for (let year = 1; year <= years; year++)` loop of
`calculateYearlyData`, recursing on the number of remaining iterations.
Arguments: annual contribution `a`, fractional rate `r`, remaining years,
current year label, running balance, running total contributed. -/
def calcLoop (a r : ℚ) : ℕ → ℕ → ℚ → ℚ → List YearlyData
  | 0, _, _, _ => []
  | n + 1, year, balance, totalContributed =>
    let startBalance := balance
    let contribution := a
    let tc := totalContributed + contribution
    let b1 := balance + contribution
    let interestEarned := b1 * r
    let b2 := b1 + interestEarned
    ⟨year, startBalance, contribution, interestEarned, b2, tc⟩ ::
      calcLoop a r n (year + 1) b2 tc

/-- The projection function of `src/app/calculator/page.tsx`: the entered
contribution is treated as monthly and multiplied by 12. -/
def calculateYearlyData (principal monthlyContribution annualRate : ℚ)
    (years : ℕ) : List YearlyData :=
  let rate := annualRate / 100
  let annualContribution := monthlyContribution * 12
  ⟨0, 0, principal, 0, principal, principal⟩ ::
    calcLoop annualContribution rate years 1 principal principal

/-- The projection variant of `next.config.ts`: the entered contribution is
used exactly as entered (already annual), no automatic multiplication. -/
def calculateYearlyDataAnnual (principal monthlyContribution annualRate : ℚ)
    (years : ℕ) : List YearlyData :=
  let rate := annualRate / 100
  let annualContribution := monthlyContribution
  ⟨0, 0, principal, 0, principal, principal⟩ ::
    calcLoop annualContribution rate years 1 principal principal

/-- Balance after `k` iterations of the loop body starting from balance `b`
with annual contribution `a` and fractional rate `r`, following the code's
order of operations (`balance += contribution; balance += balance * rate`). -/
def balN (a r b : ℚ) : ℕ → ℚ
  | 0 => b
  | k + 1 =>
    let b1 := balN a r b k + a
    b1 + b1 * r

lemma balN_zero (a r b : ℚ) : balN a r b 0 = b := rfl

lemma balN_succ (a r b : ℚ) (k : ℕ) :
    balN a r b (k + 1) = (balN a r b k + a) + (balN a r b k + a) * r := rfl

lemma balN_shift (a r b : ℚ) (k : ℕ) :
    balN a r ((b + a) + (b + a) * r) k = balN a r b (k + 1) := by
  induction k with
  | zero => rfl
  | succ k ih => rw [balN_succ, ih, ← balN_succ]

lemma calcLoop_length (a r : ℚ) :
    ∀ (n y : ℕ) (b t : ℚ), (calcLoop a r n y b t).length = n := by
  intro n
  induction n with
  | zero => intro y b t; rfl
  | succ n ih => intro y b t; simp [calcLoop, ih]

/-- Shape of the `k`-th row emitted by the loop. -/
lemma calcLoop_get? (a r : ℚ) :
    ∀ (n k y : ℕ) (b t : ℚ), k < n →
      (calcLoop a r n y b t).get? k =
        some ⟨y + k, balN a r b k, a, (balN a r b k + a) * r,
          (balN a r b k + a) + (balN a r b k + a) * r,
          t + a * (k + 1)⟩ := by
  intro n
  induction n with
  | zero => intro k y b t hk; omega
  | succ n ih =>
    intro k y b t hk
    match k with
    | 0 =>
      simp only [calcLoop, List.get?_cons_zero, balN_zero, Option.some.injEq,
        YearlyData.mk.injEq, true_and, and_true]
      constructor
      · omega
      · push_cast; ring
    | k + 1 =>
      have hk' : k < n := by omega
      simp only [calcLoop, List.get?_cons_succ]
      rw [ih k (y + 1) ((b + a) + (b + a) * r) (t + a) hk']
      simp only [Option.some.injEq, YearlyData.mk.injEq, balN_shift,
        true_and, and_true]
      constructor
      · omega
      · push_cast; ring

lemma calculateYearlyData_length (p m r : ℚ) (n : ℕ) :
    (calculateYearlyData p m r n).length = n + 1 := by
  simp [calculateYearlyData, calcLoop_length]

lemma calculateYearlyData_get?_zero (p m r : ℚ) (n : ℕ) :
    (calculateYearlyData p m r n).get? 0 = some ⟨0, 0, p, 0, p, p⟩ := rfl

lemma calculateYearlyData_get?_succ (p m r : ℚ) (n k : ℕ) (hk : k < n) :
    (calculateYearlyData p m r n).get? (k + 1) =
      some ⟨k + 1, balN (m * 12) (r / 100) p k, m * 12,
        (balN (m * 12) (r / 100) p k + m * 12) * (r / 100),
        (balN (m * 12) (r / 100) p k + m * 12) +
          (balN (m * 12) (r / 100) p k + m * 12) * (r / 100),
        p + m * 12 * (k + 1)⟩ := by
  show (calcLoop (m * 12) (r / 100) n 1 p p).get? k = _
  rw [calcLoop_get? (m * 12) (r / 100) n k 1 p p hk]
  simp only [Option.some.injEq, YearlyData.mk.injEq, true_and, and_true]
  omega

lemma calculateYearlyDataAnnual_length (p m r : ℚ) (n : ℕ) :
    (calculateYearlyDataAnnual p m r n).length = n + 1 := by
  simp [calculateYearlyDataAnnual, calcLoop_length]

lemma calculateYearlyDataAnnual_get?_zero (p m r : ℚ) (n : ℕ) :
    (calculateYearlyDataAnnual p m r n).get? 0 = some ⟨0, 0, p, 0, p, p⟩ := rfl

lemma calculateYearlyDataAnnual_get?_succ (p m r : ℚ) (n k : ℕ) (hk : k < n) :
    (calculateYearlyDataAnnual p m r n).get? (k + 1) =
      some ⟨k + 1, balN m (r / 100) p k, m,
        (balN m (r / 100) p k + m) * (r / 100),
        (balN m (r / 100) p k + m) + (balN m (r / 100) p k + m) * (r / 100),
        p + m * (k + 1)⟩ := by
  show (calcLoop m (r / 100) n 1 p p).get? k = _
  rw [calcLoop_get? m (r / 100) n k 1 p p hk]
  simp only [Option.some.injEq, YearlyData.mk.injEq, true_and, and_true]
  omega

/-- Final balance as derived in `page.tsx`:
`yearlyData.length > 0 ? yearlyData[yearlyData.length - 1].endBalance : 0`. -/
def finalBalance (l : List YearlyData) : ℚ :=
  ((l.getLast?).map YearlyData.endBalance).getD 0

/-- Total contributed as derived in `page.tsx` from the last snapshot. -/
def totalContributedOf (l : List YearlyData) : ℚ :=
  ((l.getLast?).map YearlyData.totalContributed).getD 0

/-- Derived aggregate `totalInterest = finalBalance - totalContributed`. -/
def totalInterestOf (l : List YearlyData) : ℚ :=
  finalBalance l - totalContributedOf l

/-- Derived aggregate
`interestPercentage = totalContributed > 0 ? totalInterest / totalContributed * 100 : 0`. -/
def interestPercentageOf (l : List YearlyData) : ℚ :=
  if 0 < totalContributedOf l then
    totalInterestOf l / totalContributedOf l * 100
  else 0

/-- The chart's balance-only loop `calculateWithRate` body
(`balance += monthlyContribution * 12; balance *= (1 + rate / 100)`). -/
def wrLoop (m rate : ℚ) : ℕ → ℚ → List ℚ
  | 0, _ => []
  | n + 1, b =>
    let b1 := b + m * 12
    let b2 := b1 * (1 + rate / 100)
    b2 :: wrLoop m rate n b2

/-- The helper `calculateWithRate` of `CompoundInterestChart.tsx`: the list
starts with the principal, then one updated balance per year. -/
def calculateWithRate (principal monthlyContribution rate : ℚ)
    (years : ℕ) : List ℚ :=
  principal :: wrLoop monthlyContribution rate years principal

/-- The gap-sizing step function `calculateDynamicGaps` shared by the chart
and the `next.config.ts` calculator. -/
def calculateDynamicGaps (userRate : ℚ) : ℚ × ℚ :=
  if 12 ≤ userRate then (8, 4)
  else if 8 ≤ userRate then (6, 3)
  else if 5 ≤ userRate then (3, 1.5)
  else (max 1 (userRate * 0.4), max 0.5 (userRate * 0.2))

/-- The downward comparison rates derived from the gaps
(`refRate1 = Math.max(0.1, annualRate - gap1)` and likewise `refRate2`). -/
def refRatesDown (annualRate : ℚ) : ℚ × ℚ :=
  ((max 0.1 (annualRate - (calculateDynamicGaps annualRate).1)),
   (max 0.1 (annualRate - (calculateDynamicGaps annualRate).2)))

/-- The years text-input handler of `page.tsx`:
`setYears(isNaN(value) ? 1 : value)`. The argument is the result of
`parseInt`, with `none` standing for `NaN`. -/
def handleYearsChange (parsed : Option ℤ) : ℤ :=
  match parsed with
  | none => 1
  | some v => v

/-- The years text-input handler of `next.config.ts`:
`value = raw === "" ? 0 : parseInt(raw); setYears(isNaN(value) || value < 1 ? 1 : value)`. -/
def handleYearsChangeV2 (rawEmpty : Bool) (parsed : Option ℤ) : ℤ :=
  match (if rawEmpty then some 0 else parsed) with
  | none => 1
  | some v => if v < 1 then 1 else v

/-- The other numeric handlers of `page.tsx` (principal, contribution, rate):
`setX(isNaN(value) ? 0 : value)`. -/
def handleNumericChange (parsed : Option ℚ) : ℚ :=
  match parsed with
  | none => 0
  | some v => v

/-- The other numeric handlers of `next.config.ts`:
`value = raw === "" ? 0 : parseFloat(raw); setX(isNaN(value) ? 0 : value)`. -/
def handleNumericChangeV2 (rawEmpty : Bool) (parsed : Option ℚ) : ℚ :=
  match (if rawEmpty then some 0 else parsed) with
  | none => 0
  | some v => v

lemma calculateYearlyData_ne_nil (p m r : ℚ) (n : ℕ) :
    calculateYearlyData p m r n ≠ [] := by
  simp [calculateYearlyData]

lemma getLast?_eq_get?_length_sub_one {α : Type} (l : List α) :
    l.getLast? = l.get? (l.length - 1) := by
  induction l with
  | nil => rfl
  | cons a l ih =>
    cases l with
    | nil => rfl
    | cons b l =>
      rw [List.getLast?_cons_cons, ih]
      simp [List.length_cons]

lemma finalBalance_projection (p m r : ℚ) (n : ℕ) :
    finalBalance (calculateYearlyData p m r n) =
      balN (m * 12) (r / 100) p n := by
  unfold finalBalance
  rw [getLast?_eq_get?_length_sub_one, calculateYearlyData_length]
  match n with
  | 0 => rfl
  | k + 1 =>
    have h : k + 1 + 1 - 1 = k + 1 := rfl
    rw [h, calculateYearlyData_get?_succ p m r (k + 1) k (Nat.lt_succ_self k)]
    simp [balN_succ]

lemma totalContributed_projection (p m r : ℚ) (n : ℕ) :
    totalContributedOf (calculateYearlyData p m r n) = p + m * 12 * n := by
  unfold totalContributedOf
  rw [getLast?_eq_get?_length_sub_one, calculateYearlyData_length]
  match n with
  | 0 =>
    have h0 : (0 : ℕ) + 1 - 1 = 0 := rfl
    rw [h0, calculateYearlyData_get?_zero]
    simp
  | k + 1 =>
    have h : k + 1 + 1 - 1 = k + 1 := rfl
    rw [h, calculateYearlyData_get?_succ p m r (k + 1) k (Nat.lt_succ_self k)]
    simp

lemma finalBalanceAnnual_projection (p m r : ℚ) (n : ℕ) :
    finalBalance (calculateYearlyDataAnnual p m r n) =
      balN m (r / 100) p n := by
  unfold finalBalance
  rw [getLast?_eq_get?_length_sub_one, calculateYearlyDataAnnual_length]
  match n with
  | 0 => rfl
  | k + 1 =>
    have h : k + 1 + 1 - 1 = k + 1 := rfl
    rw [h, calculateYearlyDataAnnual_get?_succ p m r (k + 1) k (Nat.lt_succ_self k)]
    simp [balN_succ]

lemma balN_no_contribution (r b : ℚ) (k : ℕ) :
    balN 0 r b k = b * (1 + r) ^ k := by
  induction k with
  | zero => simp [balN_zero]
  | succ k ih => rw [balN_succ, ih, pow_succ]; ring

lemma balN_geom (a r b : ℚ) (hr : r ≠ 0) (n : ℕ) :
    balN a r b n =
      (b + a * (1 + r) / r) * (1 + r) ^ n - a * (1 + r) / r := by
  induction n with
  | zero => simp [balN_zero]
  | succ n ih =>
    rw [balN_succ, ih, pow_succ]
    field_simp
    ring

lemma calcLoop_map_endBalance (m r : ℚ) :
    ∀ (n y : ℕ) (b t : ℚ),
      (calcLoop (m * 12) (r / 100) n y b t).map YearlyData.endBalance =
        wrLoop m r n b := by
  intro n
  induction n with
  | zero => intro y b t; rfl
  | succ n ih =>
    intro y b t
    simp only [calcLoop, wrLoop, List.map_cons]
    rw [ih]
    have hb : b + m * 12 + (b + m * 12) * (r / 100) =
        (b + m * 12) * (1 + r / 100) := by ring
    rw [hb]

lemma map_endBalance_projection (p m r : ℚ) (y : ℕ) :
    (calculateYearlyData p m r y).map YearlyData.endBalance =
      calculateWithRate p m r y := by
  show p :: (calcLoop (m * 12) (r / 100) y 1 p p).map YearlyData.endBalance =
    p :: wrLoop m r y p
  rw [calcLoop_map_endBalance]

/-- C1: in the projection produced by `calculateYearlyData`, every year `y`
with `1 ≤ y ≤ years` has `startBalance` equal to the previous snapshot's
`endBalance`, `interest = (startBalance + contribution) * rate` with
`rate = annualRate / 100` (interest accrues on the post-contribution
balance), and `endBalance = (startBalance + contribution) * (1 + rate)`. -/
theorem projection_step_recurrence (p m r : ℚ) (n y : ℕ)
    (h1 : 1 ≤ y) (h2 : y ≤ n) :
    ∃ prev cur : YearlyData,
      (calculateYearlyData p m r n).get? (y - 1) = some prev ∧
      (calculateYearlyData p m r n).get? y = some cur ∧
      cur.startBalance = prev.endBalance ∧
      cur.interest = (cur.startBalance + cur.contribution) * (r / 100) ∧
      cur.endBalance = (cur.startBalance + cur.contribution) * (1 + r / 100) := by
  obtain ⟨k, rfl⟩ : ∃ k, y = k + 1 := ⟨y - 1, by omega⟩
  have hk : k < n := by omega
  match k, hk with
  | 0, hk =>
    refine ⟨_, _, calculateYearlyData_get?_zero p m r n,
      calculateYearlyData_get?_succ p m r n 0 hk, rfl, rfl, ?_⟩
    show (p + m * 12) + (p + m * 12) * (r / 100) =
      (p + m * 12) * (1 + r / 100)
    ring
  | k + 1, hk =>
    refine ⟨_, _, calculateYearlyData_get?_succ p m r n k (by omega),
      calculateYearlyData_get?_succ p m r n (k + 1) hk, rfl, rfl, ?_⟩
    show (balN (m * 12) (r / 100) p (k + 1) + m * 12) +
        (balN (m * 12) (r / 100) p (k + 1) + m * 12) * (r / 100) =
      (balN (m * 12) (r / 100) p (k + 1) + m * 12) * (1 + r / 100)
    ring

theorem projection_step_recurrence_witness :
    ∃ prev cur : YearlyData,
      (calculateYearlyData 1000 100 7 2).get? 0 = some prev ∧
      (calculateYearlyData 1000 100 7 2).get? 1 = some cur ∧
      cur.startBalance = prev.endBalance ∧
      cur.interest = (cur.startBalance + cur.contribution) * (7 / 100) ∧
      cur.endBalance = (cur.startBalance + cur.contribution) * (1 + 7 / 100) :=
  projection_step_recurrence 1000 100 7 2 1 (by decide) (by decide)

/-- C2: for `years ≥ 1` the sequence has exactly `years + 1` entries, the
entry at position `i` has `year = i` (dense, ordered, no gaps), and the
year-0 entry is `(0, 0, principal, 0, principal, principal)`. -/
theorem projection_shape (p m r : ℚ) (n : ℕ) (hn : 1 ≤ n) :
    (calculateYearlyData p m r n).length = n + 1 ∧
    (∀ i, i < n + 1 →
      ((calculateYearlyData p m r n).get? i).map YearlyData.year = some i) ∧
    (calculateYearlyData p m r n).get? 0 = some ⟨0, 0, p, 0, p, p⟩ := by
  refine ⟨calculateYearlyData_length p m r n, ?_,
    calculateYearlyData_get?_zero p m r n⟩
  intro i hi
  match i with
  | 0 => rw [calculateYearlyData_get?_zero]; rfl
  | k + 1 =>
    rw [calculateYearlyData_get?_succ p m r n k (by omega)]
    rfl

theorem projection_shape_witness :
    (calculateYearlyData 1000 100 7 3).length = 3 + 1 :=
  (projection_shape 1000 100 7 3 (by decide)).1

/-- C3: with zero periodic contribution, the snapshot for year `n` has
`endBalance = P * (1 + rate) ^ n` where `rate = annualRatePercent / 100`. -/
theorem projection_zero_contribution (p r : ℚ) (n years : ℕ)
    (hp : 0 ≤ p) (hn : n ≤ years) :
    ((calculateYearlyData p 0 r years).get? n).map YearlyData.endBalance =
      some (p * (1 + r / 100) ^ n) := by
  match n with
  | 0 =>
    rw [calculateYearlyData_get?_zero]
    simp
  | k + 1 =>
    rw [calculateYearlyData_get?_succ p 0 r years k (by omega)]
    have h0 : (0 : ℚ) * 12 = 0 := by norm_num
    simp only [Option.map_some', Option.some.injEq]
    rw [h0, balN_no_contribution]
    ring

theorem projection_zero_contribution_witness :
    ((calculateYearlyData 100 0 7 5).get? 2).map YearlyData.endBalance =
      some (100 * (1 + 7 / 100) ^ 2) :=
  projection_zero_contribution 100 7 2 5 (by norm_num) (by decide)

/-- C4: for every `(principal, c, annualRate, years)` the `page.tsx`
projection at monthly contribution `c` equals the `next.config.ts`
projection at annual contribution `12 * c`; consequently, on identical
arguments with `c > 0` and `years ≥ 1` the two variants return different
sequences. -/
theorem variants_differ_by_twelve (p c r : ℚ) (y : ℕ) :
    calculateYearlyData p c r y = calculateYearlyDataAnnual p (12 * c) r y ∧
    (0 < c → 1 ≤ y →
      calculateYearlyData p c r y ≠ calculateYearlyDataAnnual p c r y) := by
  constructor
  · show (⟨0, 0, p, 0, p, p⟩ : YearlyData) :: calcLoop (c * 12) (r / 100) y 1 p p =
      (⟨0, 0, p, 0, p, p⟩ : YearlyData) :: calcLoop (12 * c) (r / 100) y 1 p p
    rw [mul_comm]
  · intro hc hy h
    have h1 := congrArg (fun l => (l.get? 1).map YearlyData.contribution) h
    simp only at h1
    rw [calculateYearlyData_get?_succ p c r y 0 (by omega),
      calculateYearlyDataAnnual_get?_succ p c r y 0 (by omega)] at h1
    simp only [Option.map_some', Option.some.injEq] at h1
    linarith [h1]

theorem variants_differ_by_twelve_witness :
    calculateYearlyData 0 5000 20 20 = calculateYearlyDataAnnual 0 (12 * 5000) 20 20 ∧
    calculateYearlyData 0 5000 20 20 ≠ calculateYearlyDataAnnual 0 5000 20 20 :=
  ⟨(variants_differ_by_twelve 0 5000 20 20).1,
   (variants_differ_by_twelve 0 5000 20 20).2 (by norm_num) (by decide)⟩

lemma marketing_value :
    finalBalance (calculateYearlyData 0 5000 20 20) =
      2051015620851274176 / 152587890625 := by
  rw [finalBalance_projection,
    balN_geom (5000 * 12) (20 / 100) 0 (by norm_num) 20]
  norm_num

/-- C5 counterexample: the exact final balance for
`principal = 0, monthly contribution = 5000, rate = 20 %, years = 20`
is 13,441,535.97281…, which rounds (to nearest) to 13,441,536, not to the
marketing figure 13,441,535. -/
theorem marketing_round_cex :
    round (finalBalance (calculateYearlyData 0 5000 20 20)) ≠ 13441535 := by
  have h : round (finalBalance (calculateYearlyData 0 5000 20 20)) =
      13441536 := by
    rw [marketing_value, round_eq, Int.floor_eq_iff]
    constructor
    · push_cast; norm_num
    · push_cast; norm_num
  rw [h]
  norm_num

/-- C5 amended: the final balance for that input lies within one krone of
the marketing figure — it floors (truncates) to 13,441,535 and rounds to
nearest to 13,441,536 — and the `next.config.ts` variant fed the annual
contribution 60000 produces the same final balance. -/
theorem marketing_figure_floor :
    Int.floor (finalBalance (calculateYearlyData 0 5000 20 20)) = 13441535 ∧
    round (finalBalance (calculateYearlyData 0 5000 20 20)) = 13441536 ∧
    finalBalance (calculateYearlyDataAnnual 0 60000 20 20) =
      finalBalance (calculateYearlyData 0 5000 20 20) := by
  refine ⟨?_, ?_, ?_⟩
  · rw [marketing_value, Int.floor_eq_iff]
    constructor
    · push_cast; norm_num
    · push_cast; norm_num
  · rw [marketing_value, round_eq, Int.floor_eq_iff]
    constructor
    · push_cast; norm_num
    · push_cast; norm_num
  · rw [finalBalance_projection, finalBalanceAnnual_projection,
      show (5000 : ℚ) * 12 = 60000 by norm_num]

/-- C6: the derived aggregates of `page.tsx` satisfy
`totalInterest = finalBalance - totalContributed` exactly, and
`interestPercentage` is the ratio times 100 when `totalContributed > 0`
and 0 when `totalContributed = 0` (the guarded division is never taken
with a zero denominator). -/
theorem derived_aggregates (p m r : ℚ) (y : ℕ) :
    totalInterestOf (calculateYearlyData p m r y) =
      finalBalance (calculateYearlyData p m r y) -
        totalContributedOf (calculateYearlyData p m r y) ∧
    (0 < totalContributedOf (calculateYearlyData p m r y) →
      interestPercentageOf (calculateYearlyData p m r y) =
        totalInterestOf (calculateYearlyData p m r y) /
          totalContributedOf (calculateYearlyData p m r y) * 100) ∧
    (totalContributedOf (calculateYearlyData p m r y) = 0 →
      interestPercentageOf (calculateYearlyData p m r y) = 0) := by
  refine ⟨rfl, ?_, ?_⟩
  · intro h
    simp only [interestPercentageOf]
    rw [if_pos h]
  · intro h
    have h' : ¬ 0 < totalContributedOf (calculateYearlyData p m r y) := by
      rw [h]
      norm_num
    simp only [interestPercentageOf]
    rw [if_neg h']

theorem derived_aggregates_witness :
    interestPercentageOf (calculateYearlyData 1000 100 7 1) =
      totalInterestOf (calculateYearlyData 1000 100 7 1) /
        totalContributedOf (calculateYearlyData 1000 100 7 1) * 100 :=
  (derived_aggregates 1000 100 7 1).2.1
    (by rw [totalContributed_projection]; norm_num)

/-- C7: `calculateDynamicGaps` is the step function of the base rate with
the stated plateau values, gives `(8,4)`, `(6,3)`, `(3,1.5)` and
`(max 1 0.8, max 0.5 0.4)` at rates 20, 10, 6 and 2, and the downward
comparison rates derived from the gaps are floored at 0.1, so no
comparison rate is negative. -/
theorem dynamic_gaps_step (r : ℚ) :
    (12 ≤ r → calculateDynamicGaps r = (8, 4)) ∧
    (8 ≤ r → r < 12 → calculateDynamicGaps r = (6, 3)) ∧
    (5 ≤ r → r < 8 → calculateDynamicGaps r = (3, 1.5)) ∧
    (r < 5 → calculateDynamicGaps r = (max 1 (r * 0.4), max 0.5 (r * 0.2))) ∧
    calculateDynamicGaps 20 = (8, 4) ∧
    calculateDynamicGaps 10 = (6, 3) ∧
    calculateDynamicGaps 6 = (3, 1.5) ∧
    calculateDynamicGaps 2 = (max 1 0.8, max 0.5 0.4) ∧
    (0.1 : ℚ) ≤ (refRatesDown r).1 ∧ (0.1 : ℚ) ≤ (refRatesDown r).2 := by
  refine ⟨?_, ?_, ?_, ?_, by norm_num [calculateDynamicGaps],
    by norm_num [calculateDynamicGaps], by norm_num [calculateDynamicGaps],
    by norm_num [calculateDynamicGaps], le_max_left _ _, le_max_left _ _⟩
  · intro h
    simp only [calculateDynamicGaps]
    rw [if_pos h]
  · intro h8 h12
    simp only [calculateDynamicGaps]
    rw [if_neg (not_le.mpr h12), if_pos h8]
  · intro h5 h8
    have h12 : ¬ 12 ≤ r := by linarith
    simp only [calculateDynamicGaps]
    rw [if_neg h12, if_neg (not_le.mpr h8), if_pos h5]
  · intro h5
    have h12 : ¬ 12 ≤ r := by linarith
    have h8 : ¬ 8 ≤ r := by linarith
    simp only [calculateDynamicGaps]
    rw [if_neg h12, if_neg h8, if_neg (not_le.mpr h5)]

theorem dynamic_gaps_step_witness :
    calculateDynamicGaps 20 = (8, 4) :=
  (dynamic_gaps_step 20).1 (by norm_num)

/-- C8 counterexample: the `page.tsx` years handler
(`setYears(isNaN(value) ? 1 : value)`) does not floor parsed values at 1:
the input string "0" parses to 0 and the handler yields 0, which is
below 1. -/
theorem years_handler_cex :
    handleYearsChange (some 0) = 0 ∧ ¬ (1 ≤ handleYearsChange (some 0)) := by
  exact ⟨rfl, by decide⟩

/-- C8 amended: the `next.config.ts` years handler always yields a value
of at least 1 (empty string and NaN give 1, parsed values below 1 are
floored to 1); the `page.tsx` years handler yields 1 only for unparseable
input and passes any parsed value through unchanged; the other numeric
handlers of both variants coerce unparseable (or empty) input to 0. -/
theorem input_handlers_amended :
    (∀ (e : Bool) (v : Option ℤ), 1 ≤ handleYearsChangeV2 e v) ∧
    handleYearsChange none = 1 ∧
    (∀ v : ℤ, handleYearsChange (some v) = v) ∧
    handleNumericChange none = 0 ∧
    (∀ e : Bool, handleNumericChangeV2 e none = 0) := by
  refine ⟨?_, rfl, fun v => rfl, rfl, ?_⟩
  · intro e v
    match e, v with
    | true, v =>
      show (1 : ℤ) ≤ if (0 : ℤ) < 1 then 1 else 0
      decide
    | false, none => decide
    | false, some w =>
      show (1 : ℤ) ≤ if w < 1 then 1 else w
      by_cases hw : w < 1
      · rw [if_pos hw]
      · rw [if_neg hw]; omega
  · intro e
    cases e <;> rfl

/-- C9 counterexample: with a negative contribution (reachable because
validation is advisory), `totalContributed` strictly decreases: at
`principal = 0, monthlyContribution = -100, rate = 7, years = 1` the
year-0 snapshot has `totalContributed = 0` and the year-1 snapshot has
`totalContributed = -1200`. -/
theorem totalContributed_monotone_cex :
    ¬ (∀ (i : ℕ) (a b : YearlyData),
        (calculateYearlyData 0 (-100) 7 1).get? i = some a →
        (calculateYearlyData 0 (-100) 7 1).get? (i + 1) = some b →
        a.totalContributed ≤ b.totalContributed) := by
  intro h
  have hx := calculateYearlyData_get?_zero 0 (-100) 7 1
  have hy := calculateYearlyData_get?_succ 0 (-100) 7 1 0 (by omega)
  have hle := h 0 _ _ hx hy
  norm_num [balN_zero] at hle

/-- C9 amended: whenever the contribution is non-negative (in particular on
all inputs within the documented ranges), `totalContributed` is
non-decreasing along the returned sequence; for negative contributions it
decreases (see the counterexample). -/
theorem totalContributed_monotone (p m r : ℚ) (y : ℕ) (hm : 0 ≤ m) :
    ∀ (i : ℕ) (a b : YearlyData),
      (calculateYearlyData p m r y).get? i = some a →
      (calculateYearlyData p m r y).get? (i + 1) = some b →
      a.totalContributed ≤ b.totalContributed := by
  intro i a b ha hb
  have hlb : i + 1 < (calculateYearlyData p m r y).length :=
    (List.get?_eq_some.mp hb).1
  rw [calculateYearlyData_length] at hlb
  have h12 : (0 : ℚ) ≤ m * 12 := mul_nonneg hm (by norm_num)
  match i with
  | 0 =>
    rw [calculateYearlyData_get?_zero] at ha
    rw [calculateYearlyData_get?_succ p m r y 0 (by omega)] at hb
    obtain rfl := Option.some.inj ha
    obtain rfl := Option.some.inj hb
    dsimp only
    push_cast
    nlinarith [h12]
  | k + 1 =>
    rw [calculateYearlyData_get?_succ p m r y k (by omega)] at ha
    rw [calculateYearlyData_get?_succ p m r y (k + 1) (by omega)] at hb
    obtain rfl := Option.some.inj ha
    obtain rfl := Option.some.inj hb
    dsimp only
    push_cast
    nlinarith [h12]

theorem totalContributed_monotone_witness :
    (YearlyData.mk 0 0 1000 0 1000 1000).totalContributed ≤
      (YearlyData.mk 1 1000 1200 154 2354 2200).totalContributed :=
  totalContributed_monotone 1000 100 7 2 (by norm_num) 0
    (YearlyData.mk 0 0 1000 0 1000 1000)
    (YearlyData.mk 1 1000 1200 154 2354 2200)
    (calculateYearlyData_get?_zero 1000 100 7 2)
    (by
      rw [calculateYearlyData_get?_succ 1000 100 7 2 0 (by omega)]
      simp only [balN_zero, Option.some.injEq, YearlyData.mk.injEq]
      norm_num)

/-- C10: for every `(principal, monthlyContribution, rate, years)` the
chart's balance-only loop agrees with the projection — the `endBalance`
column of `calculateYearlyData` equals `calculateWithRate` on the same
arguments — and the chart's reconstruction of the inputs from the
snapshot sequence (`principal = first endBalance`,
`monthlyContribution = second contribution / 12`,
`totalYears = length - 1`) recovers the original arguments, the
contribution part when `years ≥ 1`. -/
theorem chart_loop_agrees (p m r : ℚ) (y : ℕ) :
    (calculateYearlyData p m r y).map YearlyData.endBalance =
      calculateWithRate p m r y ∧
    ((calculateYearlyData p m r y).get? 0).map YearlyData.endBalance =
      some p ∧
    (1 ≤ y →
      ((calculateYearlyData p m r y).get? 1).map
        (fun row => row.contribution / 12) = some m) ∧
    (calculateYearlyData p m r y).length - 1 = y := by
  refine ⟨map_endBalance_projection p m r y, ?_, ?_, ?_⟩
  · rw [calculateYearlyData_get?_zero]
    rfl
  · intro hy
    rw [calculateYearlyData_get?_succ p m r y 0 (by omega)]
    simp only [Option.map_some', Option.some.injEq]
    field_simp
  · rw [calculateYearlyData_length]
    omega

theorem chart_loop_agrees_witness :
    ((calculateYearlyData 1000 100 7 2).get? 1).map
      (fun row => row.contribution / 12) = some 100 :=
  (chart_loop_agrees 1000 100 7 2).2.2.1 (by decide)
